import Mathlib

/-
  Formal model of the SuperBall backend (Python, FastAPI).
  Shallow embedding of:
  - app/models/game.py        (BlockColor, GameBoard, GameSession)
  - app/services/game_service.py (GameService.make_move, _calculate_score, finish_game)
  - app/services/matchmaking.py  (MatchmakingManager)
  - app/routes/game.py        (move / bomb endpoints)
  - app/models/game_result.py (GameResult.calculate_rewards)
  - app/config.py             (Settings)
  Randomness (random.choice) is modelled by an explicit stream of naturals
  consumed by index; timestamps by explicit Nat parameters.
-/

namespace SuperBall

/-- The BlockColor enumeration from app/models/game.py, in source order:
six ordinary colors followed by the special Bomb marker. -/
def blockColors : List String :=
  ["Purple", "Green", "Blue", "Yellow", "Red", "Pink", "Bomb"]

/-- The palette used by board generation: list(BlockColor)[:6], i.e. the
six ordinary colors without the Bomb marker. -/
def palette6 : List String := blockColors.take 6

/-- A board is stored as rows of cells, board[y][x]; cells are color name
strings and the empty sentinel is the string Empty. -/
abbrev Board := List (List String)

/-- Read board[y][x] with Nat coordinates (out-of-range reads give the
empty sentinel; in the embedded code all reads are in bounds). -/
def cellAt (b : Board) (x y : Nat) : String := (b.getD y []).getD x "Empty"

/-- Read board[y][x] with Int coordinates; only used at in-bounds
positions in the embedded code. -/
def cellAtI (b : Board) (x y : Int) : String := cellAt b x.toNat y.toNat

/-- Write board[y][x] with Nat coordinates. -/
def setCell (b : Board) (x y : Nat) (c : String) : Board :=
  b.set y ((b.getD y []).set x c)

/-- Write board[y][x] with Int coordinates. -/
def setCellI (b : Board) (x y : Int) (c : String) : Board :=
  setCell b x.toNat y.toNat c

/-- The vertical flip [board[7-i] for i in range(8)] used by make_move to
convert between the stored orientation and the processing orientation. -/
def flipBoard (b : Board) : Board :=
  (List.range 8).map (fun i => b.getD (7 - i) [])

/-- GameBoard.get_neighbors: the four axis-aligned offsets plus two
parity-dependent diagonals, filtered to the 7 x 8 bounds. -/
def getNeighbors (x y : Int) : List (Int × Int) :=
  let dirs : List (Int × Int) :=
    [(0, 1), (0, -1), (1, 0), (-1, 0)] ++
      (if y % 2 = 0 then [(-1, 1), (-1, -1)] else [(1, 1), (1, -1)])
  (dirs.map (fun d => (x + d.1, y + d.2))).filter
    (fun p => 0 ≤ p.1 && p.1 < 7 && 0 ≤ p.2 && p.2 < 8)

/-- modelled random.choice over a list, drawing index k of the stream. -/
def choice (σ : Nat → Nat) (k : Nat) (l : List String) : String :=
  l.getD (σ k % l.length) "Purple"

/-- GameBoard._flood_fill: depth-first collection of the connected
same-color group containing (x, y): if the seed is visited or off-color
return nothing, else mark it visited, start the group with it and, for
each neighbor in order that is not yet visited and matches the color,
append the recursively collected group, threading the visited set. The
fuel argument only bounds the recursion depth; the Python recursion depth
is bounded by the 56-cell board, so fuel 100 is never exhausted. Returns
the group and the updated visited set. -/
def floodFill (b : Board) (color : String) :
    Nat → Int → Int → List (Int × Int) → List (Int × Int) × List (Int × Int)
  | 0, _, _, visited => ([], visited)
  | fuel + 1, x, y, visited =>
    if (x, y) ∈ visited ∨ cellAtI b x y ≠ color then ([], visited)
    else
      (getNeighbors x y).foldl
        (fun (acc : List (Int × Int) × List (Int × Int)) n =>
          if n ∉ acc.2 ∧ cellAtI b n.1 n.2 = color then
            let out := floodFill b color fuel n.1 n.2 acc.2
            (acc.1 ++ out.1, out.2)
          else acc)
        ([(x, y)], (x, y) :: visited)

/-- the scan order of GameBoard.find_matches: y from 0 to 7, x from 0 to 6. -/
def scanPositions : List (Int × Int) :=
  ((List.range 8).map (fun y => (List.range 7).map
    (fun x => ((x : Int), (y : Int))))).flatten

/-- GameBoard.find_matches: partition non-empty cells into connected
same-color groups by flood fill and keep the groups of size at least 3. -/
def findMatches (b : Board) : List (List (Int × Int)) :=
  (scanPositions.foldl
    (fun (acc : List (List (Int × Int)) × List (Int × Int)) p =>
      if p ∈ acc.2 then acc
      else
        let color := cellAtI b p.1 p.2
        if color = "Empty" then acc
        else
          let out := floodFill b color 100 p.1 p.2 acc.2
          if out.1.length ≥ 3 then (acc.1 ++ [out.1], out.2) else (acc.1, out.2))
    ([], [])).1

/-- GameBoard.has_possible_moves. -/
def hasPossibleMoves (b : Board) : Bool := (findMatches b).length > 0

/-- GameBoard.explode_blocks: set each listed position to the empty sentinel. -/
def explodeBlocks (b : Board) (ps : List (Int × Int)) : Board :=
  ps.foldl (fun b p => setCellI b p.1 p.2 "Empty") b

/-- the non-empty cells of column x, bottom to top, with their y
coordinates (the column_blocks list of GameBoard.apply_gravity). -/
def columnBlocks (b : Board) (x : Nat) : List (Nat × String) :=
  (List.range 8).filterMap (fun y =>
    if cellAt b x y ≠ "Empty" then some (y, cellAt b x y) else none)

/-- the board after GameBoard.apply_gravity: each column is compacted
downward preserving the relative order of its non-empty cells. -/
def applyGravityBoard (b : Board) : Board :=
  (List.range 8).map (fun y => (List.range 7).map (fun x =>
    match (columnBlocks b x).get? y with
    | some p => p.2
    | none => "Empty"))

/-- the from/to move list returned by GameBoard.apply_gravity, columns in
x order, each column bottom to top. -/
def gravityMoves (b : Board) : List ((Nat × Nat) × (Nat × Nat)) :=
  ((List.range 7).map (fun x =>
    (columnBlocks b x).enum.filterMap (fun e =>
      if e.2.1 ≠ e.1 then some ((x, e.2.1), (x, e.1)) else none))).flatten

/-- the count of consecutive empty cells at the top of column x
(the empty_streak loop of GameBoard.fill_empty_spaces). -/
def emptyStreak (b : Board) (x : Nat) : Nat :=
  (((List.range 8).reverse).takeWhile (fun y => cellAt b x y = "Empty")).length

/-- GameBoard.fill_empty_spaces: for each column left to right, fill the
topmost consecutive empty cells, top downward, with draws from the full
seven-value BlockColor list; returns the board, the new blocks in
placement order, and the advanced stream index. -/
def fillEmptySpaces (σ : Nat → Nat) (k : Nat) (b : Board) :
    Board × List ((Nat × Nat) × String) × Nat :=
  (List.range 7).foldl
    (fun (st : Board × List ((Nat × Nat) × String) × Nat) x =>
      let streak := emptyStreak st.1 x
      (List.range streak).foldl
        (fun (st2 : Board × List ((Nat × Nat) × String) × Nat) i =>
          let y := 7 - i
          let c := choice σ st2.2.2 blockColors
          (setCell st2.1 x y c, st2.2.1 ++ [((x, y), c)], st2.2.2 + 1))
        st)
    (b, [], k)

/-- one fresh random 8 x 7 board drawn from the six-color palette
(the row/column comprehension of GameBoard._generate_board_with_moves). -/
def randomBoard (σ : Nat → Nat) (k : Nat) : Board × Nat :=
  (((List.range 8).map (fun y => (List.range 7).map
    (fun x => choice σ (k + y * 7 + x) palette6))), k + 56)

/-- the bounded retry loop of GameBoard._generate_board_with_moves: up to
100 random boards, returning the first with a possible move; on
exhaustion, one more random board with a forced 3-match of one palette
color at (2,2), (3,2), (4,2). -/
def genAux (σ : Nat → Nat) : Nat → Nat → Board × Nat
  | 0, k =>
    let bk := randomBoard σ k
    let c := choice σ bk.2 palette6
    (setCell (setCell (setCell bk.1 2 2 c) 3 2 c) 4 2 c, bk.2 + 1)
  | n + 1, k =>
    let bk := randomBoard σ k
    if hasPossibleMoves bk.1 then bk else genAux σ n bk.2

/-- GameBoard._generate_board_with_moves (also GameBoard.regenerate_board). -/
def generateBoardWithMoves (σ : Nat → Nat) (k : Nat) : Board × Nat :=
  genAux σ 100 k

/-- The game rule entries of Settings in app/config.py. -/
structure Settings where
  totalRounds : Nat
  turnSeconds : Nat
deriving DecidableEq

/-- the environment defaults of app/config.py: TOTAL_ROUNDS 5, TURN_SECONDS 30. -/
def defaultSettings : Settings := { totalRounds := 5, turnSeconds := 30 }

/-- GameStatus from app/models/game.py. -/
inductive GameStatus where
  | waiting
  | inProgress
  | finished
deriving DecidableEq

/-- GameSession from app/models/game.py (the fields make_move touches). -/
structure GameSession where
  player1_id : String
  player2_id : String
  player1_name : String
  player2_name : String
  current_player_id : String
  board : Board
  player1_score : Nat := 0
  player2_score : Nat := 0
  player1_moves_left : Nat := 2
  player2_moves_left : Nat := 2
  player1_bombs : Nat := 0
  player2_bombs : Nat := 0
  round : Nat := 1
  status : GameStatus := GameStatus.inProgress
  current_turn_deadline : Option Nat := none
deriving DecidableEq

/-- the ValueError conditions make_move can raise, in check order. -/
inductive MoveError where
  | gameNotFound
  | gameFinished
  | notYourTurn
  | noMovesLeft
  | invalidPosition
  | emptyCell
deriving DecidableEq

/-- MoveResponse from app/models/game.py (the fields make_move fills). -/
structure MoveResponse where
  score_gained : Nat
  total_score : Nat
  round : Nat
  moves_left : Nat
  board : Board
  exploded : List (Int × Int)
  fallen : List ((Nat × Nat) × (Nat × Nat))
  new_blocks : List ((Nat × Nat) × String)
  board_regenerated : Bool
  game_over : Bool
  winner : Option String
  clicked_x : Int
  clicked_y : Int
deriving DecidableEq

/-- One call of GameService.make_move seen from the repository: the stored
session afterward, the HTTP-visible result, and, when the game finished,
the pair of scores the reward settlement reads from the repository at the
moment it runs. -/
structure MoveOutcome where
  store : Option GameSession
  result : Except MoveError MoveResponse
  settlementScores : Option (Nat × Nat)

/-- the error of an outcome, when there is one. -/
def MoveOutcome.errOf (o : MoveOutcome) : Option MoveError :=
  match o.result with
  | Except.error e => some e
  | Except.ok _ => none

/-- GameService._calculate_score: 3 blocks give 30, 4 give 60, 5 give 100,
anything else 10 * (n * 2). -/
def calculateScore (n : Nat) : Nat :=
  let base_score := 10
  if n = 3 then base_score * 3
  else if n = 4 then base_score * 6
  else if n = 5 then base_score * 10
  else base_score * (n * 2)

/-- the winner string computed by make_move on a finished game: name of the
higher-scoring player, or the string Tie. -/
def winnerOf (g : GameSession) : String :=
  if g.player1_score > g.player2_score then g.player1_name
  else if g.player2_score > g.player1_score then g.player2_name
  else "Tie"

/-- the bomb blast of make_move: the clicked cell plus its neighbors, with
already-empty cells removed. -/
def bombAffected (b : Board) (x y : Int) : List (Int × Int) :=
  ((x, y) :: getNeighbors x y).filter
    (fun p => cellAtI b p.1 p.2 ≠ "Empty")

/-- the affected set make_move computes for a click: the bomb blast when
the clicked cell carries the Bomb marker, else the flood-filled
same-color group. -/
def resolveAffected (b : Board) (x y : Int) : List (Int × Int) :=
  if cellAtI b x y = "Bomb" then bombAffected b x y
  else (floodFill b (cellAtI b x y) 100 x y []).1

/-- the sub-3 branch of make_move: no move is consumed and no score is
granted; the board is regenerated when it has no possible move, and the
session is persisted with otherwise unchanged fields (the turn deadline is
not written on this path). -/
def noopPath (σ : Nat → Nat) (g : GameSession) (movesLeftBefore currentScore : Nat)
    (x y : Int) : MoveOutcome :=
  let regen := ¬ hasPossibleMoves (flipBoard g.board)
  let board2 := if regen then flipBoard (generateBoardWithMoves σ 0).1 else g.board
  let game_over := g.status = GameStatus.finished
  { store := some { g with board := board2 }
    result := Except.ok
      { score_gained := 0
        total_score := currentScore
        round := g.round
        moves_left := movesLeftBefore
        board := board2
        exploded := []
        fallen := []
        new_blocks := []
        board_regenerated := regen
        game_over := game_over
        winner := if game_over then some (winnerOf g) else none
        clicked_x := x
        clicked_y := y }
    settlementScores := none }

/-- the successful-explosion branch of make_move: score the affected set
(doubled for a bomb trigger, with a bomb charge granted for a non-bomb
match of 5 or more), explode, apply gravity, refill, consume one move,
apply score and bombs, switch turn and advance the round when the acting
player runs out of moves, finish the game when the round passes 5 (the
settlement then reads the scores still stored in the repository, since
the new scores are only persisted afterward), re-arm the deadline, and
regenerate the settled board if it has no possible move. -/
def successPath (st : Settings) (σ : Nat → Nat) (now : Nat) (g : GameSession)
    (uniqId : String) (internalBoard : Board) (clickedColor : String)
    (exploded : List (Int × Int)) (x y : Int) : MoveOutcome :=
  let score_gained :=
    if clickedColor = "Bomb" then calculateScore exploded.length * 2
    else calculateScore exploded.length
  let bomb_bonus := if clickedColor = "Bomb" then false else decide (exploded.length ≥ 5)
  let b1 := explodeBlocks internalBoard exploded
  let fallen := gravityMoves b1
  let b2 := applyGravityBoard b1
  let filled := fillEmptySpaces σ 0 b2
  let b3 := filled.1
  let new_blocks := filled.2.1
  let total_score_gained := score_gained
  let acting1 := g.player1_id = uniqId
  let p1m := if acting1 then g.player1_moves_left - 1 else g.player1_moves_left
  let p2m := if acting1 then g.player2_moves_left else g.player2_moves_left - 1
  let moves_left_after := if acting1 then p1m else p2m
  let p1s := if acting1 then g.player1_score + total_score_gained else g.player1_score
  let p2s := if acting1 then g.player2_score else g.player2_score + total_score_gained
  let p1b := if acting1 ∧ bomb_bonus then g.player1_bombs + 1 else g.player1_bombs
  let p2b := if ¬ acting1 ∧ bomb_bonus then g.player2_bombs + 1 else g.player2_bombs
  let current_score := if acting1 then p1s else p2s
  let switching := moves_left_after = 0
  let toP2 := g.current_player_id = g.player1_id
  let current2 := if switching then (if toP2 then g.player2_id else g.player1_id)
    else g.current_player_id
  let p1m2 := if switching ∧ ¬ toP2 then 2 else p1m
  let p2m2 := if switching ∧ toP2 then 2 else p2m
  let round2 := if switching ∧ ¬ toP2 then g.round + 1 else g.round
  let finishing := switching ∧ ¬ toP2 ∧ round2 > 5
  let status2 := if finishing then GameStatus.finished else g.status
  let settlement := if finishing then some (g.player1_score, g.player2_score) else none
  let deadline2 := now + st.turnSeconds
  let regen := ¬ hasPossibleMoves b3
  let b4 := if regen then (generateBoardWithMoves σ filled.2.2).1 else b3
  let board2 := flipBoard b4
  let g2 : GameSession :=
    { g with
      board := board2
      player1_score := p1s
      player2_score := p2s
      player1_moves_left := p1m2
      player2_moves_left := p2m2
      player1_bombs := p1b
      player2_bombs := p2b
      current_player_id := current2
      round := round2
      status := status2
      current_turn_deadline := some deadline2 }
  let game_over := status2 = GameStatus.finished
  { store := some g2
    result := Except.ok
      { score_gained := total_score_gained
        total_score := current_score
        round := round2
        moves_left := moves_left_after
        board := board2
        exploded := exploded
        fallen := fallen
        new_blocks := new_blocks
        board_regenerated := regen
        game_over := game_over
        winner := if game_over then some (winnerOf g2) else none
        clicked_x := x
        clicked_y := y }
    settlementScores := settlement }

/-- GameService.make_move: validation cascade (unknown session, finished
game, wrong turn, no moves left, out-of-bounds position, empty clicked
cell, each raising its own ValueError before any repository write), then
resolution of the click on the vertically flipped board, dispatching to
the sub-3 no-op branch or the successful-explosion branch. -/
def makeMove (st : Settings) (σ : Nat → Nat) (now : Nat) (repo : Option GameSession)
    (uniqId : String) (x y : Int) : MoveOutcome :=
  match repo with
  | none => { store := none, result := Except.error MoveError.gameNotFound,
              settlementScores := none }
  | some g =>
    if g.status = GameStatus.finished then
      { store := some g, result := Except.error MoveError.gameFinished,
        settlementScores := none }
    else if g.current_player_id ≠ uniqId then
      { store := some g, result := Except.error MoveError.notYourTurn,
        settlementScores := none }
    else
      let movesLeftBefore :=
        if g.player1_id = uniqId then g.player1_moves_left else g.player2_moves_left
      if movesLeftBefore ≤ 0 then
        { store := some g, result := Except.error MoveError.noMovesLeft,
          settlementScores := none }
      else
        let currentScore :=
          if g.player1_id = uniqId then g.player1_score else g.player2_score
        if ¬ (0 ≤ x ∧ x < 7 ∧ 0 ≤ y ∧ y < 8) then
          { store := some g, result := Except.error MoveError.invalidPosition,
            settlementScores := none }
        else if cellAtI g.board x y = "Empty" then
          { store := some g, result := Except.error MoveError.emptyCell,
            settlementScores := none }
        else
          let internalBoard := flipBoard g.board
          let clickedColor := cellAtI internalBoard x y
          let exploded := resolveAffected internalBoard x y
          if exploded.length < 3 then
            noopPath σ g movesLeftBefore currentScore x y
          else
            successPath st σ now g uniqId internalBoard clickedColor exploded x y

/-- GameOutcome from app/models/game_result.py. -/
inductive GameOutcome where
  | win
  | lose
  | tie
deriving DecidableEq

/-- the outcome rule of GameResult.calculate_rewards: strictly higher
score wins, strictly lower loses, equal ties. -/
def rewardOutcome (playerScore opponentScore : Nat) : GameOutcome :=
  if playerScore > opponentScore then GameOutcome.win
  else if playerScore < opponentScore then GameOutcome.lose
  else GameOutcome.tie

/-- the required parameters of GameResult.calculate_rewards
(app/models/game_result.py, classmethod signature). -/
def calculateRewardsParams : List String :=
  ["player_score", "opponent_score", "current_trophies", "current_money",
   "current_stars"]

/-- the keyword arguments RewardService.process_game_result passes to
GameResult.calculate_rewards (app/services/reward_service.py). -/
def processGameResultCallArgs : List String :=
  ["player_score", "opponent_score", "current_trophies", "current_money"]

/-- whether the calculate_rewards call in process_game_result supplies
every required parameter; when false, the Python call raises TypeError
and process_game_result returns the pair (None, None). -/
def processGameResultCallBinds : Bool :=
  calculateRewardsParams.all (fun p => processGameResultCallArgs.contains p)

/-- the method names defined in class GameService
(app/services/game_service.py). -/
def gameServiceMethods : List String :=
  ["__init__", "create_game_session", "make_move", "_get_connected_blocks",
   "_calculate_score", "_settle_board", "get_game_state", "get_player_games",
   "finish_game"]

/-- Python attribute lookup of a method name on a GameService instance. -/
def gameServiceHasAttr (m : String) : Bool := gameServiceMethods.contains m

/-- the HTTP status of the /game/bomb route (app/routes/game.py,
use_bomb): the handler invokes game_service.use_bomb; when the attribute
does not exist the call raises AttributeError, which falls to the generic
exception handler and yields status 500; only a resolved call could reach
the ValueError-to-400 or success-to-200 paths. -/
def useBombRouteStatus : Nat :=
  if gameServiceHasAttr "use_bomb" then 200 else 500

/-- a matchmaking queue entry as the Python runtime sees it: join_queue
appends 3-tuples (id, name, joined_at); the rollback in try_match appends
2-tuples (id, name). -/
inductive QEntry where
  | mk3 (id name : String) (joinedAt : Nat)
  | mk2 (id name : String)
deriving DecidableEq

/-- the 3-way tuple unpacking the queue loops perform on an entry; on a
2-tuple Python raises ValueError (not enough values to unpack). -/
def unpack3 : QEntry → Except String (String × String × Nat)
  | QEntry.mk3 i n t => Except.ok (i, n, t)
  | QEntry.mk2 _ _ => Except.error "ValueError: not enough values to unpack"

/-- MatchmakingManager._prune_queue_locked: rebuild the queue keeping the
entries whose player still has a connection and whose age is within the
TTL; every entry is unpacked as a 3-tuple. -/
def pruneQueueLocked (now : Nat) (conns : List String) (ttl : Nat) :
    List QEntry → Except String (List QEntry)
  | [] => Except.ok []
  | e :: es => do
    let t3 ← unpack3 e
    let rest ← pruneQueueLocked now conns ttl es
    if ¬ conns.contains t3.1 then pure rest
    else if now - t3.2.2 > ttl then pure rest
    else pure (QEntry.mk3 t3.1 t3.2.1 t3.2.2 :: rest)

/-- MatchmakingManager.join_queue: append a fresh 3-tuple entry unless the
id is already present; the duplicate scan unpacks each entry as a
3-tuple. -/
def joinQueue (now : Nat) (id name : String) :
    List QEntry → Except String (List QEntry)
  | [] => Except.ok [QEntry.mk3 id name now]
  | e :: es => do
    let t3 ← unpack3 e
    if t3.1 = id then pure (e :: es)
    else do
      let rest ← joinQueue now id name es
      pure (e :: rest)

/-- the index pairs (i, j) with i < j < n, in the scan order of the double
loop of try_match. -/
def pairIndices (n : Nat) : List (Nat × Nat) :=
  ((List.range n).map (fun i =>
    ((List.range n).filter (fun j => i < j)).map (fun j => (i, j)))).flatten

/-- the id field of an entry (inside try_match the queue was just pruned,
so every entry scanned here is a 3-tuple). -/
def QEntry.eid : QEntry → String
  | QEntry.mk3 i _ _ => i
  | QEntry.mk2 i _ => i

/-- the double index scan of try_match: the first pair (i, j), i < j, of
queue entries whose players both have live connections. -/
def findPair (conns : List String) (q : List QEntry) : Option (Nat × Nat) :=
  (pairIndices q.length).find? (fun ij =>
    conns.contains (q.getD ij.1 (QEntry.mk2 "" "")).eid &&
    conns.contains (q.getD ij.2 (QEntry.mk2 "" "")).eid)

/-- the display name field of an entry. -/
def QEntry.ename : QEntry → String
  | QEntry.mk3 _ n _ => n
  | QEntry.mk2 _ n => n

/-- MatchmakingManager.try_match with session creation abstracted by the
createOk flag: prune, find the first fully connected pair, pop both
entries (higher index first); on creation success return the matched ids,
on creation failure append the two players back as 2-tuples (id, name)
and return no match. -/
def tryMatch (now : Nat) (conns : List String) (ttl : Nat) (createOk : Bool)
    (queue : List QEntry) : Except String (List QEntry × Option (String × String)) := do
  let q ← pruneQueueLocked now conns ttl queue
  if q.length < 2 then pure (q, none)
  else
    match findPair conns q with
    | none => pure (q, none)
    | some (i, j) =>
      let p1 := q.getD i (QEntry.mk2 "" "")
      let p2 := q.getD j (QEntry.mk2 "" "")
      let q2 := (q.eraseIdx j).eraseIdx i
      if createOk then pure (q2, some (p1.eid, p2.eid))
      else pure (q2 ++ [QEntry.mk2 p1.eid p1.ename, QEntry.mk2 p2.eid p2.ename], none)

/-- The neighbor candidates as the specification words them: the four
axis-aligned offsets plus, for even rows, (x-1,y+1) and (x-1,y-1) and,
for odd rows, (x+1,y+1) and (x+1,y-1). Stated from the spec for
comparison with getNeighbors. -/
def specNeighborCandidates (x y : Int) : List (Int × Int) :=
  [(x, y + 1), (x, y - 1), (x - 1, y), (x + 1, y)] ++
    (if y % 2 = 0 then [(x - 1, y + 1), (x - 1, y - 1)]
     else [(x + 1, y + 1), (x + 1, y - 1)])

/-- C8. Hex neighbors: for every in-bounds position on the 7 x 8 grid,
get_neighbors returns exactly the in-bounds positions among the four
axis-aligned offsets plus the two parity diagonals, hence at most 6
positions, all in bounds, and the neighbor relation is symmetric. -/
theorem spec2proof_C8_neighbors :
    (∀ x : Fin 7, ∀ y : Fin 8, ∀ p ∈ getNeighbors x y,
        0 ≤ p.1 ∧ p.1 < 7 ∧ 0 ≤ p.2 ∧ p.2 < 8) ∧
    (∀ x : Fin 7, ∀ y : Fin 8, (getNeighbors x y).length ≤ 6) ∧
    (∀ x : Fin 7, ∀ y : Fin 8, ∀ px : Fin 7, ∀ py : Fin 8,
        (((px : Int), (py : Int)) ∈ getNeighbors x y ↔
          ((px : Int), (py : Int)) ∈ specNeighborCandidates x y)) ∧
    (∀ x : Fin 7, ∀ y : Fin 8, ∀ px : Fin 7, ∀ py : Fin 8,
        ((px : Int), (py : Int)) ∈ getNeighbors x y →
          ((x : Int), (y : Int)) ∈ getNeighbors px py) := by
  refine ⟨by decide, by decide, by decide, by decide⟩

/-- C1. The /game/bomb route calls game_service.use_bomb, but class
GameService defines no method named use_bomb; the attribute lookup fails,
so every bomb request ends in the generic exception handler with HTTP
status 500 and never produces a move-shaped result. -/
theorem spec2proof_C1_bomb_route_broken :
    useBombRouteStatus = 500 ∧ gameServiceHasAttr "use_bomb" = false := by
  decide

/-- C7. Scoring: the score table gives 30, 60, 100 for 3, 4, 5 cells and
20 * n for 6 or more; a bomb-triggered explosion of n cells scores twice
the click score of n cells; a non-bomb match of 5 or more grants the
acting player exactly one bomb charge, while a bomb trigger grants
none. -/
theorem spec2proof_C7_scoring :
    (calculateScore 3 = 30 ∧ calculateScore 4 = 60 ∧ calculateScore 5 = 100 ∧
      calculateScore 6 = 120 ∧ calculateScore 7 = 140) ∧
    (∀ n, 6 ≤ n → calculateScore n = 20 * n) ∧
    (∀ st σ now g uid b e x y r,
        (successPath st σ now g uid b "Bomb" e x y).result = Except.ok r →
          r.score_gained = 2 * calculateScore e.length) ∧
    (∀ st σ now g uid b c e x y g2, c ≠ "Bomb" → 5 ≤ e.length →
        (successPath st σ now g uid b c e x y).store = some g2 →
          (g.player1_id = uid →
            g2.player1_bombs = g.player1_bombs + 1 ∧
            g2.player2_bombs = g.player2_bombs) ∧
          (g.player1_id ≠ uid →
            g2.player2_bombs = g.player2_bombs + 1 ∧
            g2.player1_bombs = g.player1_bombs)) ∧
    (∀ st σ now g uid b e x y g2,
        (successPath st σ now g uid b "Bomb" e x y).store = some g2 →
          g2.player1_bombs = g.player1_bombs ∧
          g2.player2_bombs = g.player2_bombs) := by
  refine ⟨⟨rfl, rfl, rfl, rfl, rfl⟩, ?_, ?_, ?_, ?_⟩
  · intro n h6
    have h3 : n ≠ 3 := by omega
    have h4 : n ≠ 4 := by omega
    have h5 : n ≠ 5 := by omega
    simp [calculateScore, h3, h4, h5]
    ring
  · intro st σ now g uid b e x y r hr
    simp only [successPath, reduceIte] at hr
    cases hr
    simp [Nat.mul_comm]
  · intro st σ now g uid b c e x y g2 hc h5 hst
    have h5d : decide (e.length ≥ 5) = true := by simpa using h5
    simp only [successPath, if_neg hc, h5d] at hst
    cases hst
    constructor
    · intro hp1
      constructor
      · simp [hp1]
      · simp [hp1]
    · intro hp1
      constructor
      · simp [hp1]
      · simp [hp1]
  · intro st σ now g uid b e x y g2 hst
    simp only [successPath, reduceIte] at hst
    cases hst
    constructor <;> simp

/-- the malformed queue left behind by a failed pairing. -/
def rolledBackQueue : List QEntry :=
  [QEntry.mk2 "p1" "Alice", QEntry.mk2 "p2" "Bob"]

/-- C9. Matchmaking rollback: when session creation fails, try_match
appends both players back as 2-tuples (id, name) instead of the 3-tuple
(id, name, enqueue time) shape join_queue uses, so the next pruning pass
and the next join both crash on tuple unpacking instead of treating them
as valid queue entries. -/
theorem spec2proof_C9_rollback_malformed :
    tryMatch 0 ["p1", "p2"] 300 false
        [QEntry.mk3 "p1" "Alice" 0, QEntry.mk3 "p2" "Bob" 0] =
      Except.ok (rolledBackQueue, none) ∧
    (∀ now conns ttl, pruneQueueLocked now conns ttl rolledBackQueue =
      Except.error "ValueError: not enough values to unpack") ∧
    (∀ now, joinQueue now "p3" "Carol" rolledBackQueue =
      Except.error "ValueError: not enough values to unpack") := by
  refine ⟨rfl, ?_, ?_⟩
  · intro now conns ttl
    rfl
  · intro now
    rfl

/-- absence of the Bomb marker from a board. -/
def boardNoBomb (b : Board) : Prop :=
  ∀ (x : Fin 7) (y : Fin 8), cellAt b x y ≠ "Bomb"

instance (b : Board) : Decidable (boardNoBomb b) := by
  unfold boardNoBomb
  infer_instance

/-- reading a board built as a map over the 8 row indices. -/
lemma cellAt_rowsMap (f : Nat → List String) (x y : Nat) (hy : y < 8) :
    cellAt ((List.range 8).map f) x y = (f y).getD x "Empty" := by
  simp [cellAt, List.getD_eq_getElem?_getD, List.getElem?_map,
    List.getElem?_range hy]

/-- reading a row built as a map over the 7 column indices. -/
lemma rowMap_getD (g : Nat → String) (x : Nat) (hx : x < 7) :
    ((List.range 7).map g).getD x "Empty" = g x := by
  simp [List.getD_eq_getElem?_getD, List.getElem?_map, List.getElem?_range hx]

/-- a draw from a non-empty list is an element of it. -/
lemma choice_mem (σ : Nat → Nat) (k : Nat) (l : List String) (h : l ≠ []) :
    choice σ k l ∈ l := by
  have hlt : σ k % l.length < l.length :=
    Nat.mod_lt _ (List.length_pos.mpr h)
  rw [choice, List.getD_eq_getElem _ _ hlt]
  exact List.getElem_mem hlt

/-- a cell after set_cell is the written value or the original cell. -/
lemma cellAt_setCell (b : Board) (x y : Nat) (c : String) (x' y' : Nat) :
    cellAt (setCell b x y c) x' y' = c ∨
      cellAt (setCell b x y c) x' y' = cellAt b x' y' := by
  simp only [cellAt, setCell, List.getD_eq_getElem?_getD]
  rw [List.getElem?_set]
  by_cases hy : y = y'
  · subst hy
    rw [if_pos rfl]
    by_cases hyl : y < b.length
    · rw [if_pos hyl, Option.getD_some, List.getElem?_set]
      by_cases hx : x = x'
      · subst hx
        rw [if_pos rfl]
        by_cases hxl : x < ((b[y]?).getD []).length
        · rw [if_pos hxl, Option.getD_some]
          exact Or.inl rfl
        · rw [if_neg hxl]
          refine Or.inr ?_
          rw [List.getElem?_eq_none (show ((b[y]?).getD []).length ≤ x by omega)]
      · rw [if_neg hx]
        exact Or.inr rfl
    · rw [if_neg hyl]
      refine Or.inr ?_
      rw [List.getElem?_eq_none (show b.length ≤ y by omega)]
  · rw [if_neg hy]
    exact Or.inr rfl

/-- set_cell with a non-Bomb value keeps a Bomb-free board Bomb-free. -/
lemma boardNoBomb_setCell {b : Board} {x y : Nat} {c : String}
    (hb : boardNoBomb b) (hc : c ≠ "Bomb") : boardNoBomb (setCell b x y c) := by
  intro x' y'
  rcases cellAt_setCell b x y c x' y' with h | h <;> rw [h]
  · exact hc
  · exact hb x' y'

/-- the six-color generation palette does not contain the Bomb marker. -/
lemma palette6_noBomb : ∀ s ∈ palette6, s ≠ "Bomb" := by decide

/-- a fresh random board never contains the Bomb marker. -/
lemma randomBoard_noBomb (σ : Nat → Nat) (k : Nat) :
    boardNoBomb (randomBoard σ k).1 := by
  intro x y
  have h1 : (randomBoard σ k).1 =
      (List.range 8).map (fun yy => (List.range 7).map
        (fun xx => choice σ (k + yy * 7 + xx) palette6)) := rfl
  rw [h1, cellAt_rowsMap _ _ _ y.isLt, rowMap_getD _ _ x.isLt]
  exact palette6_noBomb _ (choice_mem σ _ palette6 (by decide))

/-- board generation (and hence regeneration) never places the Bomb
marker, including the forced-match fallback. -/
lemma genAux_noBomb (σ : Nat → Nat) (n k : Nat) :
    boardNoBomb (genAux σ n k).1 := by
  induction n generalizing k with
  | zero =>
    refine boardNoBomb_setCell (boardNoBomb_setCell (boardNoBomb_setCell
      (randomBoard_noBomb σ k) ?_) ?_) ?_ <;>
      exact palette6_noBomb _ (choice_mem σ _ palette6 (by decide))
  | succ n ih =>
    show boardNoBomb (if hasPossibleMoves (randomBoard σ k).1
      then randomBoard σ k else genAux σ n (randomBoard σ k).2).1
    split
    · exact randomBoard_noBomb σ k
    · exact ih _

/-- exploding cells keeps a Bomb-free board Bomb-free. -/
lemma boardNoBomb_explode {b : Board} (hb : boardNoBomb b)
    (ps : List (Int × Int)) : boardNoBomb (explodeBlocks b ps) := by
  induction ps generalizing b with
  | nil => exact hb
  | cons p ps ih =>
    exact ih (boardNoBomb_setCell hb (by decide))

/-- gravity only rearranges existing cells, so it keeps a Bomb-free board
Bomb-free. -/
lemma boardNoBomb_gravity {b : Board} (hb : boardNoBomb b) :
    boardNoBomb (applyGravityBoard b) := by
  intro x y
  unfold applyGravityBoard
  rw [cellAt_rowsMap _ _ _ y.isLt, rowMap_getD _ _ x.isLt]
  cases hcb : (columnBlocks b x).get? y with
  | none => simp
  | some p =>
    simp only
    have hmem : p ∈ columnBlocks b x := by
      rw [List.get?_eq_getElem?] at hcb
      exact List.getElem?_mem hcb
    rcases List.mem_filterMap.mp hmem with ⟨y', hy', hp⟩
    split at hp
    · cases hp
      exact hb x ⟨y', List.mem_range.mp hy'⟩
    · cases hp

/-- the vertical flip keeps a Bomb-free board Bomb-free. -/
lemma boardNoBomb_flip {b : Board} (hb : boardNoBomb b) :
    boardNoBomb (flipBoard b) := by
  intro x y
  unfold flipBoard
  rw [cellAt_rowsMap _ _ _ y.isLt]
  have h7 : 7 - (y : Nat) < 8 := by omega
  have h2 : cellAt b x (7 - (y : Nat)) ≠ "Bomb" := hb x ⟨7 - (y : Nat), h7⟩
  simpa [cellAt] using h2

/-- an all-empty board, used to exhibit a refill draw of the Bomb marker. -/
def emptyBoard : Board := List.replicate 8 (List.replicate 7 "Empty")

/-- a property preserved by each step of a fold is preserved by the fold. -/
lemma foldl_pres {α β : Type} (P : β → Prop) (f : β → α → β)
    (h : ∀ b a, P b → P (f b a)) : ∀ (l : List α) (b : β), P b → P (l.foldl f b) := by
  intro l
  induction l with
  | nil => intro b hb; exact hb
  | cons a l ih => intro b hb; exact ih _ (h b a hb)

/-- C10. Refill palette includes the bomb marker: every block spawned by
fill_empty_spaces is drawn from the full 7-value BlockColor list, whose
last value is the Bomb marker; some draw places a Bomb cell; and the
refill is the only mechanism that introduces a Bomb cell, since board
generation draws from the 6-color palette and explosion, gravity and the
orientation flip never introduce it. -/
theorem spec2proof_C10_refill_palette :
    (∀ (σ : Nat → Nat) (k : Nat) (b : Board),
        ∀ p ∈ (fillEmptySpaces σ k b).2.1, p.2 ∈ blockColors) ∧
    ("Bomb" ∈ blockColors ∧ blockColors.length = 7) ∧
    (∃ (σ : Nat → Nat) (b : Board),
        ∃ p ∈ (fillEmptySpaces σ 0 b).2.1, p.2 = "Bomb") ∧
    (∀ (σ : Nat → Nat) (k : Nat), boardNoBomb (generateBoardWithMoves σ k).1) ∧
    (∀ (b : Board) (ps : List (Int × Int)),
        boardNoBomb b → boardNoBomb (explodeBlocks b ps)) ∧
    (∀ b : Board, boardNoBomb b → boardNoBomb (applyGravityBoard b)) ∧
    (∀ b : Board, boardNoBomb b → boardNoBomb (flipBoard b)) := by
  refine ⟨?_, ⟨by decide, by decide⟩, ?_, ?_, ?_, ?_, ?_⟩
  · intro σ k b
    unfold fillEmptySpaces
    refine foldl_pres
      (fun (st : Board × List ((Nat × Nat) × String) × Nat) =>
        ∀ p ∈ st.2.1, p.2 ∈ blockColors) _ ?_ _ _
      (fun p hp => absurd hp (List.not_mem_nil p))
    intro st x hst
    refine foldl_pres
      (fun (st2 : Board × List ((Nat × Nat) × String) × Nat) =>
        ∀ p ∈ st2.2.1, p.2 ∈ blockColors) _ ?_ _ _ hst
    intro st2 i hst2
    intro p hp
    rcases List.mem_append.mp hp with h | h
    · exact hst2 p h
    · rcases List.mem_singleton.mp h with rfl
      exact choice_mem σ _ blockColors (by decide)
  · exact ⟨fun _ => 6, emptyBoard, ((0, 7), "Bomb"), by decide, rfl⟩
  · intro σ k
    exact genAux_noBomb σ 100 k
  · intro b ps hb
    exact boardNoBomb_explode hb ps
  · intro b hb
    exact boardNoBomb_gravity hb
  · intro b hb
    exact boardNoBomb_flip hb

/-- the moves-left counter of the slot make_move charges for uniqId: the
player-1 slot when player1_id equals uniqId, else the player-2 slot. -/
def movesOf (g : GameSession) (uid : String) : Nat :=
  if g.player1_id = uid then g.player1_moves_left else g.player2_moves_left

/-- the stream used by concrete evaluations. -/
def σ0 : Nat → Nat := fun _ => 0

/-- C3. Error atomicity: whenever make_move rejects an action it does so
with the distinct error of the failed check, in check order (unknown
session, finished game, wrong turn, exhausted moves, out-of-bounds
position, empty clicked cell), performs no repository update, and leaves
the stored session exactly as it was; no settlement is triggered. -/
theorem spec2proof_C3_error_atomicity (st : Settings) (σ : Nat → Nat) (now : Nat)
    (repo : Option GameSession) (uid : String) (x y : Int) (e : MoveError)
    (h : (makeMove st σ now repo uid x y).result = Except.error e) :
    (makeMove st σ now repo uid x y).store = repo ∧
    (makeMove st σ now repo uid x y).settlementScores = none ∧
    (e = MoveError.gameNotFound ↔ repo = none) ∧
    (∀ g, repo = some g →
      ((e = MoveError.gameFinished ↔ g.status = GameStatus.finished) ∧
       (e = MoveError.notYourTurn ↔
         (g.status ≠ GameStatus.finished ∧ g.current_player_id ≠ uid)) ∧
       (e = MoveError.noMovesLeft ↔
         (g.status ≠ GameStatus.finished ∧ g.current_player_id = uid ∧
          movesOf g uid = 0)) ∧
       (e = MoveError.invalidPosition ↔
         (g.status ≠ GameStatus.finished ∧ g.current_player_id = uid ∧
          movesOf g uid ≠ 0 ∧ ¬ (0 ≤ x ∧ x < 7 ∧ 0 ≤ y ∧ y < 8))) ∧
       (e = MoveError.emptyCell ↔
         (g.status ≠ GameStatus.finished ∧ g.current_player_id = uid ∧
          movesOf g uid ≠ 0 ∧ (0 ≤ x ∧ x < 7 ∧ 0 ≤ y ∧ y < 8) ∧
          cellAtI g.board x y = "Empty")))) := by
  cases repo with
  | none =>
    have hout : makeMove st σ now none uid x y =
        { store := none, result := Except.error MoveError.gameNotFound,
          settlementScores := none } := rfl
    rw [hout] at h ⊢
    have he : e = MoveError.gameNotFound := by
      cases h
      rfl
    subst he
    refine ⟨rfl, rfl, by simp, ?_⟩
    intro g hg
    cases hg
  | some g =>
    by_cases h1 : g.status = GameStatus.finished
    · have hout : makeMove st σ now (some g) uid x y =
          { store := some g, result := Except.error MoveError.gameFinished,
            settlementScores := none } := by
        simp only [makeMove, if_pos h1]
      rw [hout] at h ⊢
      have he : e = MoveError.gameFinished := by
        cases h
        rfl
      subst he
      refine ⟨rfl, rfl, by simp, ?_⟩
      intro g2 hg2
      cases hg2
      exact ⟨iff_of_true rfl h1, iff_of_false (by simp) (by simp [h1]),
        iff_of_false (by simp) (by simp [h1]),
        iff_of_false (by simp) (by simp [h1]),
        iff_of_false (by simp) (by simp [h1])⟩
    · by_cases h2 : g.current_player_id ≠ uid
      · have hout : makeMove st σ now (some g) uid x y =
            { store := some g, result := Except.error MoveError.notYourTurn,
              settlementScores := none } := by
          simp only [makeMove, if_neg h1, if_pos h2]
        rw [hout] at h ⊢
        have he : e = MoveError.notYourTurn := by
          cases h
          rfl
        subst he
        refine ⟨rfl, rfl, by simp, ?_⟩
        intro g2 hg2
        cases hg2
        exact ⟨iff_of_false (by simp) h1, iff_of_true rfl ⟨h1, h2⟩,
          iff_of_false (by simp) (by simp [h2]),
          iff_of_false (by simp) (by simp [h2]),
          iff_of_false (by simp) (by simp [h2])⟩
      · rw [not_not] at h2
        by_cases h3 : movesOf g uid = 0
        · have hout : makeMove st σ now (some g) uid x y =
              { store := some g, result := Except.error MoveError.noMovesLeft,
                settlementScores := none } := by
            have h3le : (if g.player1_id = uid then g.player1_moves_left
                else g.player2_moves_left) ≤ 0 := by
              have := Nat.le_of_eq h3
              simpa [movesOf] using this
            simp only [makeMove, if_neg h1, if_neg (not_not.mpr h2)]
            rw [if_pos h3le]
          rw [hout] at h ⊢
          have he : e = MoveError.noMovesLeft := by
            cases h
            rfl
          subst he
          refine ⟨rfl, rfl, by simp, ?_⟩
          intro g2 hg2
          cases hg2
          exact ⟨iff_of_false (by simp) h1,
            iff_of_false (by simp) (by simp [h2]),
            iff_of_true rfl ⟨h1, h2, h3⟩,
            iff_of_false (by simp) (by simp [h3]),
            iff_of_false (by simp) (by simp [h3])⟩
        · by_cases h4 : ¬ (0 ≤ x ∧ x < 7 ∧ 0 ≤ y ∧ y < 8)
          · have hout : makeMove st σ now (some g) uid x y =
                { store := some g,
                  result := Except.error MoveError.invalidPosition,
                  settlementScores := none } := by
              have h3gt : ¬ (if g.player1_id = uid then g.player1_moves_left
                  else g.player2_moves_left) ≤ 0 := by
                simpa [movesOf, Nat.le_zero] using h3
              simp only [makeMove, if_neg h1, if_neg (not_not.mpr h2)]
              rw [if_neg h3gt, if_pos h4]
            rw [hout] at h ⊢
            have he : e = MoveError.invalidPosition := by
              cases h
              rfl
            subst he
            refine ⟨rfl, rfl, by simp, ?_⟩
            intro g2 hg2
            cases hg2
            exact ⟨iff_of_false (by simp) h1,
              iff_of_false (by simp) (by simp [h2]),
              iff_of_false (by simp) (by simp [h3]),
              iff_of_true rfl ⟨h1, h2, h3, h4⟩,
              iff_of_false (by simp) (by simp [h4])⟩
          · rw [not_not] at h4
            by_cases h5 : cellAtI g.board x y = "Empty"
            · have hout : makeMove st σ now (some g) uid x y =
                  { store := some g,
                    result := Except.error MoveError.emptyCell,
                    settlementScores := none } := by
                have h3gt : ¬ (if g.player1_id = uid then g.player1_moves_left
                    else g.player2_moves_left) ≤ 0 := by
                  simpa [movesOf, Nat.le_zero] using h3
                simp only [makeMove, if_neg h1, if_neg (not_not.mpr h2)]
                rw [if_neg h3gt, if_neg (not_not.mpr h4), if_pos h5]
              rw [hout] at h ⊢
              have he : e = MoveError.emptyCell := by
                cases h
                rfl
              subst he
              refine ⟨rfl, rfl, by simp, ?_⟩
              intro g2 hg2
              cases hg2
              exact ⟨iff_of_false (by simp) h1,
                iff_of_false (by simp) (by simp [h2]),
                iff_of_false (by simp) (by simp [h3]),
                iff_of_false (by simp) (by simp [h4]),
                iff_of_true rfl ⟨h1, h2, h3, h4, h5⟩⟩
            · exfalso
              have hres := h
              have h3gt : ¬ (if g.player1_id = uid then g.player1_moves_left
                  else g.player2_moves_left) ≤ 0 := by
                simpa [movesOf, Nat.le_zero] using h3
              simp only [makeMove, if_neg h1, if_neg (not_not.mpr h2)] at hres
              rw [if_neg h3gt, if_neg (not_not.mpr h4), if_neg h5] at hres
              split at hres
              · simp only [noopPath] at hres
                cases hres
              · simp only [successPath] at hres
                cases hres


/-- a session used only to exercise the unknown-session rejection. -/
theorem spec2proof_C3_error_atomicity_witness :
    (makeMove defaultSettings σ0 0 none "p1" 0 0).store = none :=
  (spec2proof_C3_error_atomicity defaultSettings σ0 0 none "p1" 0 0
    MoveError.gameNotFound rfl).1

/-- the score counter of the slot make_move credits for uniqId. -/
def scoreOf (g : GameSession) (uid : String) : Nat :=
  if g.player1_id = uid then g.player1_score else g.player2_score

/-- the conjunction of all validation checks of make_move on a stored
session. -/
def validOk (g : GameSession) (uid : String) (x y : Int) : Prop :=
  g.status ≠ GameStatus.finished ∧ g.current_player_id = uid ∧
  movesOf g uid ≠ 0 ∧ (0 ≤ x ∧ x < 7 ∧ 0 ≤ y ∧ y < 8) ∧
  cellAtI g.board x y ≠ "Empty"

/-- make_move on a stored session takes exactly one of three branches:
a validation error (leaving the store untouched), the sub-3 no-op branch,
or the successful-explosion branch. -/
lemma makeMove_split (st : Settings) (σ : Nat → Nat) (now : Nat)
    (g : GameSession) (uid : String) (x y : Int) :
    (¬ validOk g uid x y ∧ ∃ e, makeMove st σ now (some g) uid x y =
      { store := some g, result := Except.error e, settlementScores := none }) ∨
    (validOk g uid x y ∧
      (resolveAffected (flipBoard g.board) x y).length < 3 ∧
      makeMove st σ now (some g) uid x y =
        noopPath σ g (movesOf g uid) (scoreOf g uid) x y) ∨
    (validOk g uid x y ∧
      ¬ (resolveAffected (flipBoard g.board) x y).length < 3 ∧
      makeMove st σ now (some g) uid x y =
        successPath st σ now g uid (flipBoard g.board)
          (cellAtI (flipBoard g.board) x y)
          (resolveAffected (flipBoard g.board) x y) x y) := by
  by_cases h1 : g.status = GameStatus.finished
  · exact Or.inl ⟨fun hv => hv.1 h1,
      MoveError.gameFinished, by simp only [makeMove, if_pos h1]⟩
  · by_cases h2 : g.current_player_id ≠ uid
    · exact Or.inl ⟨fun hv => h2 hv.2.1,
        MoveError.notYourTurn, by simp only [makeMove, if_neg h1, if_pos h2]⟩
    · rw [not_not] at h2
      by_cases h3 : movesOf g uid = 0
      · refine Or.inl ⟨fun hv => hv.2.2.1 h3, MoveError.noMovesLeft, ?_⟩
        have h3le : (if g.player1_id = uid then g.player1_moves_left
            else g.player2_moves_left) ≤ 0 := by
          have := Nat.le_of_eq h3
          simpa [movesOf] using this
        simp only [makeMove, if_neg h1, if_neg (not_not.mpr h2)]
        rw [if_pos h3le]
      · have h3gt : ¬ (if g.player1_id = uid then g.player1_moves_left
            else g.player2_moves_left) ≤ 0 := by
          simpa [movesOf, Nat.le_zero] using h3
        by_cases h4 : ¬ (0 ≤ x ∧ x < 7 ∧ 0 ≤ y ∧ y < 8)
        · refine Or.inl ⟨fun hv => h4 hv.2.2.2.1, MoveError.invalidPosition, ?_⟩
          simp only [makeMove, if_neg h1, if_neg (not_not.mpr h2)]
          rw [if_neg h3gt, if_pos h4]
        · rw [not_not] at h4
          by_cases h5 : cellAtI g.board x y = "Empty"
          · refine Or.inl ⟨fun hv => hv.2.2.2.2 h5, MoveError.emptyCell, ?_⟩
            simp only [makeMove, if_neg h1, if_neg (not_not.mpr h2)]
            rw [if_neg h3gt, if_neg (not_not.mpr h4), if_pos h5]
          · have hv : validOk g uid x y := ⟨h1, h2, h3, h4, h5⟩
            by_cases h6 : (resolveAffected (flipBoard g.board) x y).length < 3
            · refine Or.inr (Or.inl ⟨hv, h6, ?_⟩)
              simp only [makeMove, if_neg h1, if_neg (not_not.mpr h2)]
              rw [if_neg h3gt, if_neg (not_not.mpr h4), if_neg h5, if_pos h6]
              rfl
            · refine Or.inr (Or.inr ⟨hv, h6, ?_⟩)
              simp only [makeMove, if_neg h1, if_neg (not_not.mpr h2)]
              rw [if_neg h3gt, if_neg (not_not.mpr h4), if_neg h5, if_neg h6]

/-- the stored board of the counterexample session for the empty-cell
check: the cell at the request coordinates, read without any flip, holds
Red, while the flipped cell the flood fill seeds from is Empty. -/
def b2 : Board :=
  [["Red", "Blue", "Green", "Blue", "Green", "Blue", "Green"],
   ["Green", "Green", "Green", "Green", "Green", "Green", "Green"],
   ["Blue", "Blue", "Blue", "Blue", "Blue", "Blue", "Blue"],
   ["Green", "Green", "Green", "Green", "Green", "Green", "Green"],
   ["Blue", "Blue", "Blue", "Blue", "Blue", "Blue", "Blue"],
   ["Green", "Green", "Green", "Green", "Green", "Green", "Green"],
   ["Blue", "Blue", "Blue", "Blue", "Blue", "Blue", "Blue"],
   ["Empty", "Yellow", "Yellow", "Yellow", "Pink", "Blue", "Pink"]]

/-- a session whose stored cell (0,0) is full while the flipped cell the
resolution actually seeds from is empty. -/
def cs2 : GameSession :=
  { player1_id := "p1", player2_id := "p2", player1_name := "Alice",
    player2_name := "Bob", current_player_id := "p1", board := b2 }

/-- C2 counterexample. On session cs2 the flood-fill seed cell (the
flipped board cell at the click) is Empty, yet make_move does not raise
the EmptyCell error, because the check reads the unflipped cell, which
holds Red. -/
theorem spec2proof_C2_counterexample :
    MoveOutcome.errOf (makeMove defaultSettings σ0 0 (some cs2) "p1" 0 0) ≠
      some MoveError.emptyCell ∧
    cellAtI (flipBoard cs2.board) 0 0 = "Empty" ∧
    cellAtI cs2.board 0 0 ≠ "Empty" := by
  refine ⟨by decide, by decide, by decide⟩

/-- C2 amended. On an in-progress session where it is the callers turn
with moves left and the position is in bounds, make_move raises EmptyCell
iff the stored board cell at the request coordinates, read without any
flip, is the Empty sentinel; the flood-fill seed is instead the cell of
the vertically flipped board, which can disagree. -/
theorem spec2proof_C2_empty_check (st : Settings) (σ : Nat → Nat) (now : Nat)
    (g : GameSession) (uid : String) (x y : Int)
    (h1 : g.status ≠ GameStatus.finished) (h2 : g.current_player_id = uid)
    (h3 : movesOf g uid ≠ 0) (h4 : 0 ≤ x ∧ x < 7 ∧ 0 ≤ y ∧ y < 8) :
    MoveOutcome.errOf (makeMove st σ now (some g) uid x y) =
      some MoveError.emptyCell ↔ cellAtI g.board x y = "Empty" := by
  by_cases h5 : cellAtI g.board x y = "Empty"
  · have h3gt : ¬ (if g.player1_id = uid then g.player1_moves_left
        else g.player2_moves_left) ≤ 0 := by
      simpa [movesOf, Nat.le_zero] using h3
    have hout : makeMove st σ now (some g) uid x y =
        { store := some g, result := Except.error MoveError.emptyCell,
          settlementScores := none } := by
      simp only [makeMove, if_neg h1, if_neg (not_not.mpr h2)]
      rw [if_neg h3gt, if_neg (not_not.mpr h4), if_pos h5]
    rw [hout]
    exact iff_of_true rfl h5
  · rcases makeMove_split st σ now g uid x y with ⟨hnv, _⟩ | ⟨_, _, hout⟩ | ⟨_, _, hout⟩
    · exact absurd ⟨h1, h2, h3, h4, h5⟩ hnv
    · rw [hout]
      exact iff_of_false (by simp [noopPath, MoveOutcome.errOf]) h5
    · exact iff_of_false (by rw [hout]; simp [successPath, MoveOutcome.errOf]) h5

/-- a session whose clicked stored cell is itself empty, to exercise the
EmptyCell rejection of the amended statement. -/
def cs2w : GameSession :=
  { player1_id := "p1", player2_id := "p2", player1_name := "Alice",
    player2_name := "Bob", current_player_id := "p1",
    board := [["Empty", "Blue", "Green", "Blue", "Green", "Blue", "Green"],
      ["Green", "Green", "Green", "Green", "Green", "Green", "Green"],
      ["Blue", "Blue", "Blue", "Blue", "Blue", "Blue", "Blue"],
      ["Green", "Green", "Green", "Green", "Green", "Green", "Green"],
      ["Blue", "Blue", "Blue", "Blue", "Blue", "Blue", "Blue"],
      ["Green", "Green", "Green", "Green", "Green", "Green", "Green"],
      ["Blue", "Blue", "Blue", "Blue", "Blue", "Blue", "Blue"],
      ["Red", "Yellow", "Yellow", "Yellow", "Pink", "Blue", "Pink"]] }

/-- witness for the amended empty-cell characterization at a concrete
session whose stored clicked cell is empty. -/
theorem spec2proof_C2_empty_check_witness :
    MoveOutcome.errOf (makeMove defaultSettings σ0 0 (some cs2w) "p1" 0 0) =
      some MoveError.emptyCell :=
  (spec2proof_C2_empty_check defaultSettings σ0 0 cs2w "p1" 0 0
    (by decide) (by decide) (by decide) (by decide)).mpr (by decide)

/-- a board with no empty cell (the shape of every stored board: boards
are seeded full and every settle refills to the top). -/
def boardFull (b : Board) : Prop :=
  ∀ (x : Fin 7) (y : Fin 8), cellAt b x y ≠ "Empty"

instance (b : Board) : Decidable (boardFull b) := by
  unfold boardFull
  infer_instance

/-- neighbor lists contain only in-bounds positions. -/
lemma getNeighbors_inBounds (x y : Int) :
    ∀ p ∈ getNeighbors x y, 0 ≤ p.1 ∧ p.1 < 7 ∧ 0 ≤ p.2 ∧ p.2 < 8 := by
  intro p hp
  unfold getNeighbors at hp
  have h := (List.mem_filter.mp hp).2
  simp only [Bool.and_eq_true, decide_eq_true_eq] at h
  exact ⟨h.1.1.1, h.1.1.2, h.1.2, h.2⟩

/-- every in-bounds position has at least two neighbors. -/
lemma getNeighbors_ge_two :
    ∀ (x : Fin 7) (y : Fin 8),
      2 ≤ (getNeighbors ((x : Nat) : Int) ((y : Nat) : Int)).length := by
  decide

/-- on a full board a bomb blast covers the center and every neighbor,
hence at least three cells. -/
lemma bombAffected_len (b : Board) (hf : boardFull b) (x y : Int)
    (hx0 : 0 ≤ x) (hx7 : x < 7) (hy0 : 0 ≤ y) (hy8 : y < 8) :
    3 ≤ (bombAffected b x y).length := by
  have hfull : ∀ p ∈ (x, y) :: getNeighbors x y, cellAtI b p.1 p.2 ≠ "Empty" := by
    intro p hp
    rcases List.mem_cons.mp hp with rfl | hp
    · have := hf ⟨x.toNat, by omega⟩ ⟨y.toNat, by omega⟩
      simpa [cellAtI] using this
    · rcases getNeighbors_inBounds x y p hp with ⟨h1, h2, h3, h4⟩
      have := hf ⟨p.1.toNat, by omega⟩ ⟨p.2.toNat, by omega⟩
      simpa [cellAtI] using this
  have heq : bombAffected b x y = (x, y) :: getNeighbors x y := by
    unfold bombAffected
    apply List.filter_eq_self.mpr
    intro a ha
    simpa using hfull a ha
  rw [heq, List.length_cons]
  have h2 : 2 ≤ (getNeighbors x y).length := by
    have hfin := getNeighbors_ge_two ⟨x.toNat, by omega⟩ ⟨y.toNat, by omega⟩
    have hx' : ((x.toNat : Nat) : Int) = x := Int.toNat_of_nonneg hx0
    have hy' : ((y.toNat : Nat) : Int) = y := Int.toNat_of_nonneg hy0
    rw [hx', hy'] at hfin
    exact hfin
  omega

/-- C4. Turn invariant: a resolved action (non-empty exploded set, which
covers both a 3-or-larger match and a bomb trigger, the latter always
resolving on a full board) decrements the acting player's moves-left
counter by exactly one, before any allowance reset of the other player;
a sub-3 no-op click leaves both counters unchanged; a rejected action
leaves the stored session untouched; and on a full board a bomb trigger
that passes validation always resolves. -/
theorem spec2proof_C4_turn_invariant (st : Settings) (σ : Nat → Nat) (now : Nat)
    (g : GameSession) (uid : String) (x y : Int) :
    (∀ r g2, (makeMove st σ now (some g) uid x y).result = Except.ok r →
        (makeMove st σ now (some g) uid x y).store = some g2 →
        r.exploded ≠ [] → movesOf g2 uid + 1 = movesOf g uid) ∧
    (∀ r g2, (makeMove st σ now (some g) uid x y).result = Except.ok r →
        (makeMove st σ now (some g) uid x y).store = some g2 →
        r.exploded = [] →
        g2.player1_moves_left = g.player1_moves_left ∧
        g2.player2_moves_left = g.player2_moves_left) ∧
    (∀ e, (makeMove st σ now (some g) uid x y).result = Except.error e →
        (makeMove st σ now (some g) uid x y).store = some g) ∧
    (boardFull (flipBoard g.board) →
      cellAtI (flipBoard g.board) x y = "Bomb" →
      MoveOutcome.errOf (makeMove st σ now (some g) uid x y) = none →
      ∃ r, (makeMove st σ now (some g) uid x y).result = Except.ok r ∧
        r.exploded ≠ []) := by
  rcases makeMove_split st σ now g uid x y with ⟨hnv, e, hout⟩ |
    ⟨hv, hlen, hout⟩ | ⟨hv, hlen, hout⟩
  · refine ⟨?_, ?_, ?_, ?_⟩
    · intro r g2 hok _ _
      rw [hout] at hok
      simp at hok
    · intro r g2 hok _ _
      rw [hout] at hok
      simp at hok
    · intro e' _
      rw [hout]
    · intro _ _ herr
      rw [hout] at herr
      simp [MoveOutcome.errOf] at herr
  · refine ⟨?_, ?_, ?_, ?_⟩
    · intro r g2 hok _ hne
      rw [hout] at hok
      simp only [noopPath] at hok
      cases hok
      exact absurd rfl hne
    · intro r g2 hok hst _
      rw [hout] at hok hst
      simp only [noopPath] at hok hst
      cases hok
      cases hst
      exact ⟨rfl, rfl⟩
    · intro e he
      rw [hout] at he
      simp [noopPath] at he
    · intro hfull hbomb _
      exfalso
      have h3 : 3 ≤ (resolveAffected (flipBoard g.board) x y).length := by
        rw [resolveAffected, if_pos hbomb]
        rcases hv.2.2.2.1 with ⟨hx0, hx7, hy0, hy8⟩
        exact bombAffected_len _ hfull x y hx0 hx7 hy0 hy8
      omega
  · have hcur : g.current_player_id = uid := hv.2.1
    refine ⟨?_, ?_, ?_, ?_⟩
    · intro r g2 hok hst _
      rw [hout] at hok hst
      simp only [successPath] at hok hst
      cases hok
      cases hst
      by_cases ha : g.player1_id = uid
      · have htoP2 : g.current_player_id = g.player1_id := by rw [hcur, ha]
        have hm : g.player1_moves_left ≠ 0 := by
          have := hv.2.2.1
          simpa [movesOf, ha] using this
        simp [movesOf, ha, htoP2]
        omega
      · have hntoP2 : ¬ g.current_player_id = g.player1_id := by
          rw [hcur]
          exact fun h => ha h.symm
        have hm : g.player2_moves_left ≠ 0 := by
          have := hv.2.2.1
          simpa [movesOf, ha] using this
        simp [movesOf, ha, hntoP2]
        omega
    · intro r g2 hok _ hemp
      rw [hout] at hok
      simp only [successPath] at hok
      cases hok
      have hemp2 : resolveAffected (flipBoard g.board) x y = [] := hemp
      rw [hemp2] at hlen
      simp at hlen
    · intro e he
      rw [hout] at he
      simp [successPath] at he
    · intro _ _ _
      rw [hout]
      refine ⟨_, rfl, ?_⟩
      intro hemp
      have hemp2 : resolveAffected (flipBoard g.board) x y = [] := hemp
      rw [hemp2] at hlen
      simp at hlen

/-- a session used to exercise the turn-invariant statement at the
wrong-turn rejection. -/
def cs4 : GameSession :=
  { player1_id := "p1", player2_id := "p2", player1_name := "Alice",
    player2_name := "Bob", current_player_id := "p2", board := b2 }

/-- witness instantiating the turn invariant at a concrete rejected
action: the store stays exactly the submitted session. -/
theorem spec2proof_C4_turn_invariant_witness :
    (makeMove defaultSettings σ0 0 (some cs4) "p1" 0 0).store = some cs4 :=
  (spec2proof_C4_turn_invariant defaultSettings σ0 0 cs4 "p1" 0 0).2.2.1
    MoveError.notYourTurn rfl

/-- a Settings value whose configured total-rounds limit is 3 instead of
the default 5. -/
def settings3 : Settings := { totalRounds := 3, turnSeconds := 30 }

/-- a full stored board whose flipped bottom row starts with a Red run of
exactly three cells, so a click at (0,0) resolves a 3-match. -/
def b6 : Board :=
  [["Red", "Blue", "Green", "Blue", "Green", "Blue", "Green"],
   ["Green", "Green", "Green", "Green", "Green", "Green", "Green"],
   ["Blue", "Blue", "Blue", "Blue", "Blue", "Blue", "Blue"],
   ["Green", "Green", "Green", "Green", "Green", "Green", "Green"],
   ["Blue", "Blue", "Blue", "Blue", "Blue", "Blue", "Blue"],
   ["Green", "Green", "Green", "Green", "Green", "Green", "Green"],
   ["Blue", "Blue", "Blue", "Blue", "Blue", "Blue", "Blue"],
   ["Red", "Red", "Red", "Blue", "Green", "Blue", "Green"]]

/-- a session on its configured-final round under settings3: round 3,
player 2 acting with one move left. -/
def cs5 : GameSession :=
  { player1_id := "p1", player2_id := "p2", player1_name := "Alice",
    player2_name := "Bob", current_player_id := "p2", board := b6,
    player2_moves_left := 1, round := 3 }

/-- C5 counterexample. Under a configuration with TOTAL_ROUNDS = 3, the
move that advances the round counter to 4 leaves the session in progress,
because make_move compares the round to the hardcoded constant 5, not to
the configured limit. -/
theorem spec2proof_C5_counterexample :
    (makeMove settings3 σ0 0 (some cs5) "p2" 0 0).store.map GameSession.round =
      some 4 ∧
    (makeMove settings3 σ0 0 (some cs5) "p2" 0 0).store.map GameSession.status =
      some GameStatus.inProgress ∧
    settings3.totalRounds = 3 := by
  refine ⟨by decide, by decide, rfl⟩

/-- C5 amended. The round counter increments exactly once per full turn
cycle: on a resolved action it increments iff the acting player just spent
the last move of the player-2 slot (the turn returns to player 1), and the
session transitions to Finished exactly when the incremented round
exceeds the hardcoded constant 5 (the default value of TOTAL_ROUNDS; the
configured setting is not consulted); rejected and no-op actions change
neither round nor status. -/
theorem spec2proof_C5_round_rule (st : Settings) (σ : Nat → Nat) (now : Nat)
    (g : GameSession) (uid : String) (x y : Int) :
    (∀ e, (makeMove st σ now (some g) uid x y).result = Except.error e →
        (makeMove st σ now (some g) uid x y).store = some g) ∧
    (∀ r g2, (makeMove st σ now (some g) uid x y).result = Except.ok r →
        (makeMove st σ now (some g) uid x y).store = some g2 →
        r.exploded = [] → g2.round = g.round ∧ g2.status = g.status) ∧
    (∀ r g2, (makeMove st σ now (some g) uid x y).result = Except.ok r →
        (makeMove st σ now (some g) uid x y).store = some g2 →
        r.exploded ≠ [] →
        (g2.round = if r.moves_left = 0 ∧ g.current_player_id ≠ g.player1_id
          then g.round + 1 else g.round) ∧
        (g2.status = if r.moves_left = 0 ∧ g.current_player_id ≠ g.player1_id
            ∧ g.round + 1 > 5 then GameStatus.finished else g.status)) := by
  rcases makeMove_split st σ now g uid x y with ⟨hnv, e, hout⟩ |
    ⟨hv, hlen, hout⟩ | ⟨hv, hlen, hout⟩
  · refine ⟨?_, ?_, ?_⟩
    · intro e' _
      rw [hout]
    · intro r g2 hok _ _
      rw [hout] at hok
      simp at hok
    · intro r g2 hok _ _
      rw [hout] at hok
      simp at hok
  · refine ⟨?_, ?_, ?_⟩
    · intro e he
      rw [hout] at he
      simp [noopPath] at he
    · intro r g2 hok hst _
      rw [hout] at hok hst
      simp only [noopPath] at hok hst
      cases hok
      cases hst
      exact ⟨rfl, rfl⟩
    · intro r g2 hok _ hne
      rw [hout] at hok
      simp only [noopPath] at hok
      cases hok
      exact absurd rfl hne
  · refine ⟨?_, ?_, ?_⟩
    · intro e he
      rw [hout] at he
      simp [successPath] at he
    · intro r g2 hok _ hemp
      rw [hout] at hok
      simp only [successPath] at hok
      cases hok
      have hemp2 : resolveAffected (flipBoard g.board) x y = [] := hemp
      rw [hemp2] at hlen
      simp at hlen
    · intro r g2 hok hst _
      rw [hout] at hok hst
      simp only [successPath] at hok hst
      cases hok
      cases hst
      have hcur : g.current_player_id = uid := hv.2.1
      refine ⟨rfl, ?_⟩
      by_cases ha : g.player1_id = uid
      · have htp : g.current_player_id = g.player1_id := by rw [hcur, ha]
        simp [htp]
      · have htp : ¬ g.current_player_id = g.player1_id := by
          rw [hcur]
          exact fun h => ha h.symm
        by_cases hsw : g.player2_moves_left - 1 = 0
        · by_cases h5 : 5 < g.round + 1
          · simp [ha, hsw, htp, h5]
          · simp [ha, hsw, htp, h5]
        · simp [ha, hsw, htp]

/-- witness instantiating the round rule at a concrete rejected action. -/
theorem spec2proof_C5_round_rule_witness :
    (makeMove defaultSettings σ0 0 (some cs4) "p1" 0 0).store = some cs4 :=
  (spec2proof_C5_round_rule defaultSettings σ0 0 cs4 "p1" 0 0).1
    MoveError.notYourTurn rfl

/-- a session about to finish: round 5, player 2 acting with one move
left, stored scores 10 to 0; the resolved 3-match adds 30 points to
player 2, so the true final scores are 10 to 30. -/
def cs6 : GameSession :=
  { player1_id := "p1", player2_id := "p2", player1_name := "Alice",
    player2_name := "Bob", current_player_id := "p2", board := b6,
    player1_score := 10, player2_score := 0,
    player2_moves_left := 1, round := 5 }

/-- C6. Settlement on final scores fails twice in the code: the finishing
move triggers finish_game before the new scores are persisted, so the
settlement reads the stale stored scores (10, 0) instead of the final
(10, 30) — under the outcome rule the stale pair makes player 1 the
winner although player 2 actually won — and, independently, the
calculate_rewards call of process_game_result omits the required
current_stars parameter, so settlement raises TypeError and applies no
rewards at all. -/
theorem spec2proof_C6_settlement_stale :
    (makeMove defaultSettings σ0 0 (some cs6) "p2" 0 0).settlementScores =
      some (10, 0) ∧
    (makeMove defaultSettings σ0 0 (some cs6) "p2" 0 0).store.map
      GameSession.player1_score = some 10 ∧
    (makeMove defaultSettings σ0 0 (some cs6) "p2" 0 0).store.map
      GameSession.player2_score = some 30 ∧
    (makeMove defaultSettings σ0 0 (some cs6) "p2" 0 0).store.map
      GameSession.status = some GameStatus.finished ∧
    rewardOutcome 10 0 = GameOutcome.win ∧
    rewardOutcome 30 10 = GameOutcome.win ∧
    processGameResultCallBinds = false := by
  refine ⟨by decide, by decide, by decide, by decide, rfl, rfl, by decide⟩

end SuperBall
